import Mathlib

set_option maxRecDepth 8000

/-!
Verification development for the token-pulse service.

The embedding covers the two JavaScript source files, whose core functions
are line-for-line duplicates of each other (the API file inlines the
library because the edge runtime cannot import from the library directory):
the pulse scorer `calculatePulse`, the main-pair selection inside
`getPulse`, the result assembler `getPulse`, the batch wrapper
`getBatchPulse`, the one-line renderer `formatPulseSummary` with its
number formatter `formatNum`, and the HTTP handler.

Modelling choices:
- JavaScript numbers are modelled as exact rationals (ℚ).
- Absent/nullable upstream fields are `Option` values; the defaulting
  idiom `x || 0` is `Option.getD 0`, and where the truthiness of a
  present value matters (`pair.marketCap || pair.fdv || 0`, where the
  number 0 is falsy) it is modelled explicitly.
- Thrown exceptions are `Except String`; the upstream fetch is a
  function `Env` from address to thrown-error-or-pairs.
- `Number.prototype.toFixed` follows the ECMA-262 algorithm on exact
  rationals: the sign is taken from the argument, the magnitude is
  rounded to d digits with ties toward the larger magnitude.
-/

/-- `pair.baseToken` as read by the assembler: an object whose `name`
and `symbol` properties may each be undefined. -/
structure BaseToken where
  name : Option String := none
  symbol : Option String := none
deriving DecidableEq, Inhabited

/-- One upstream trading pair, restricted to the fields the code reads.
Nested optional paths (`volume?.h24`, `txns?.h24?.buys`, ...) are
flattened to one Option per read path; `priceUsd` holds the numeric
value `parseFloat` yields for the upstream string (none when the field
is absent or unparsable, which the code then defaults to 0). -/
structure Pair where
  volumeH24 : Option ℚ := none
  marketCap : Option ℚ := none
  fdv : Option ℚ := none
  priceChangeH24 : Option ℚ := none
  txnsH24Buys : Option ℚ := none
  txnsH24Sells : Option ℚ := none
  liquidityUsd : Option ℚ := none
  priceUsd : Option ℚ := none
  baseToken : Option BaseToken := none
  dexId : Option String := none
  chainId : Option String := none
  url : Option String := none
deriving DecidableEq, Inhabited

/-- The `token` block of a found PulseResult (name/symbol may be
undefined when the main pair has no `baseToken`). -/
structure TokenInfo where
  name : Option String
  symbol : Option String
deriving DecidableEq, Inhabited

/-- The `stats` block of a found PulseResult. -/
structure Stats where
  price : ℚ
  mcap : ℚ
  volume24h : ℚ
  change24h : ℚ
  txns24h : ℚ
  liquidity : ℚ
deriving DecidableEq, Inhabited

/-- The `pair` block of a found PulseResult. -/
structure PairInfo where
  dex : Option String
  chain : Option String
  url : Option String
deriving DecidableEq, Inhabited

/-- The per-token output record. Fields the code leaves off an object
are `none`. -/
structure PulseResult where
  address : String
  found : Bool
  pulse : String
  message : Option String := none
  error : Option String := none
  token : Option TokenInfo := none
  stats : Option Stats := none
  pair : Option PairInfo := none
  pairCount : Option Nat := none
  timestamp : Option String := none
deriving DecidableEq, Inhabited

/-- JS `x || 0` on an optional numeric field: absent reads as 0, and a
present 0 stays 0. -/
def jsNum (o : Option ℚ) : ℚ := o.getD 0

/-- JS template interpolation of a possibly-undefined string: the value
`undefined` renders as the literal text "undefined". -/
def jsStr (o : Option String) : String := o.getD "undefined"

/-- `pair.volume?.h24 || 0` -/
def vol24 (p : Pair) : ℚ := jsNum p.volumeH24

/-- `pair.marketCap || pair.fdv || 0`: JS `||` takes the right operand
whenever the left is falsy, and the number 0 is falsy, so a
present-but-zero marketCap still falls through to fdv. -/
def mcapOf (p : Pair) : ℚ :=
  match p.marketCap with
  | some m => if m = 0 then jsNum p.fdv else m
  | none => jsNum p.fdv

/-- `pair.priceChange?.h24 || 0` -/
def change24 (p : Pair) : ℚ := jsNum p.priceChangeH24

/-- `(pair.txns?.h24?.buys || 0) + (pair.txns?.h24?.sells || 0)` -/
def txns24 (p : Pair) : ℚ := jsNum p.txnsH24Buys + jsNum p.txnsH24Sells

/-- `mcap > 0 ? vol24h / mcap : 0` (the guarded turnover ratio). -/
def volRatio (p : Pair) : ℚ :=
  if mcapOf p > 0 then vol24 p / mcapOf p else 0

/-- The integer score accumulated by `calculatePulse`: volume tier,
transaction tier, turnover tier, momentum bonus, momentum penalty. -/
def scoreOf (p : Pair) : ℤ :=
  (if vol24 p > 10000 then 3 else if vol24 p > 1000 then 2 else if vol24 p > 100 then 1 else 0)
    + (if txns24 p > 50 then 2 else if txns24 p > 10 then 1 else 0)
    + (if volRatio p > 0.1 then 2 else if volRatio p > 0.01 then 1 else 0)
    + (if change24 p > 20 then 1 else 0)
    + (if change24 p < -50 then -2 else 0)

/-- The final if-chain of `calculatePulse` mapping a score to a label. -/
def pulseLabel (score : ℤ) : String :=
  if score ≥ 6 then "strong"
  else if score ≥ 4 then "stable"
  else if score ≥ 2 then "weak"
  else if score ≥ 0 then "critical"
  else "dead"

/-- `calculatePulse(pair)`: a null/absent pair maps directly to "dead",
otherwise score then label. -/
def calculatePulse (pair : Option Pair) : String :=
  match pair with
  | none => "dead"
  | some p => pulseLabel (scoreOf p)

/-- The reduce callback of the main-pair selection:
`(pair.volume?.h24 || 0) > (best.volume?.h24 || 0) ? pair : best`. -/
def selStep (best pair : Pair) : Pair :=
  if vol24 pair > vol24 best then pair else best

/-- `pairs.reduce(selStep, pairs[0])` on the non-empty list `p :: ps`:
JS `reduce` with an explicit initial value visits every element,
including the one used as the initial best. -/
def selectMainPair (p : Pair) (ps : List Pair) : Pair :=
  List.foldl selStep p (p :: ps)

/-- Outcome of the upstream fetch+parse for one address
(`fetchTokenData`): a thrown error message, or the parsed pairs list
(`data.pairs || []`). -/
abbrev Env : Type := String → Except String (List Pair)

/-- The `stats` block assembled by `getPulse` from the main pair. -/
def assembleStats (p : Pair) : Stats :=
  { price := jsNum p.priceUsd
    mcap := mcapOf p
    volume24h := vol24 p
    change24h := change24 p
    txns24h := txns24 p
    liquidity := jsNum p.liquidityUsd }

/-- `getPulse(address)`: fetch, short-circuit an empty pair list to a
not-found result, otherwise select the main pair, score it, and
assemble the result. `now` is the ISO timestamp taken at assembly. -/
def getPulse (env : Env) (now : String) (address : String) : Except String PulseResult :=
  match env address with
  | .error e => .error e
  | .ok [] =>
      .ok { address := address
            found := false
            pulse := "dead"
            message := some "No trading pairs found" }
  | .ok (p :: ps) =>
      let mainPair := selectMainPair p ps
      .ok { address := address
            found := true
            pulse := calculatePulse (some mainPair)
            token := some { name := mainPair.baseToken.bind BaseToken.name
                            symbol := mainPair.baseToken.bind BaseToken.symbol }
            stats := some (assembleStats mainPair)
            pair := some { dex := mainPair.dexId
                           chain := mainPair.chainId
                           url := mainPair.url }
            pairCount := some (p :: ps).length
            timestamp := some now }

/-- `getBatchPulse(addresses)` (library file only): each address's
lookup carries its own catch, converting a failure into an error result
for that address alone. -/
def getBatchPulse (env : Env) (now : String) (addresses : List String) : List PulseResult :=
  addresses.map fun addr =>
    match getPulse env now addr with
    | .ok r => r
    | .error e =>
        { address := addr
          found := false
          pulse := "error"
          error := some e }

/-- ECMA-262 `toFixed` on a nonnegative rational: round to `d` digits
after the point, ties toward the larger value, then print integer part,
a dot, and the zero-padded fraction digits. -/
def toFixedNat (q : ℚ) (d : Nat) : String :=
  let x : ℚ := q * 10 ^ d + 1 / 2
  let m : Nat := x.num.toNat / x.den
  if d = 0 then toString m
  else
    let ip := m / 10 ^ d
    let fp := m % 10 ^ d
    let fs := toString fp
    toString ip ++ "." ++ String.mk (List.replicate (d - fs.length) '0') ++ fs

/-- JS `Number.prototype.toFixed`: the sign is taken from the argument,
then the magnitude is rounded (so ties go away from zero). -/
def toFixed (q : ℚ) (d : Nat) : String :=
  if q < 0 then "-" ++ toFixedNat (-q) d else toFixedNat q d

/-- `formatNum(n)`: millions with one decimal and "M", thousands with
one decimal and "K", otherwise an integer. -/
def formatNum (n : ℚ) : String :=
  if n ≥ 1000000 then toFixed (n / 1000000) 1 ++ "M"
  else if n ≥ 1000 then toFixed (n / 1000) 1 ++ "K"
  else toFixed n 0

/-- The emoji lookup object of `formatPulseSummary`, with its
unknown-label default. -/
def emojiFor (pulse : String) : String :=
  if pulse = "strong" then "💪"
  else if pulse = "stable" then "✅"
  else if pulse = "weak" then "⚠️"
  else if pulse = "critical" then "🔴"
  else if pulse = "dead" then "💀"
  else if pulse = "error" then "❌"
  else "❓"

/-- `formatPulseSummary(result)`: the not-found line truncates the
address to 10 characters; the found line interpolates emoji, symbol,
uppercased pulse, price to 6 decimals, formatted mcap and volume, and
the signed change to 1 decimal. -/
def formatPulseSummary (r : PulseResult) : String :=
  if !r.found then r.address.take 10 ++ "... — " ++ r.pulse
  else
    let tok := r.token.getD default
    let st := r.stats.getD default
    emojiFor r.pulse ++ " $" ++ jsStr tok.symbol ++ " — " ++ r.pulse.toUpper
      ++ " | $" ++ toFixed st.price 6
      ++ " | mcap $" ++ formatNum st.mcap
      ++ " | vol $" ++ formatNum st.volume24h
      ++ " | " ++ (if st.change24h ≥ 0 then "+" else "") ++ toFixed st.change24h 1 ++ "%"

/-- The JSON body shapes the handler can respond with. The 400 and 500
constructors stand for the fixed error/usage payloads (whose message
text the claims do not inspect beyond the exception message). -/
inductive RespBody where
  | optionsBody : RespBody
  | errorMissing : RespBody
  | errorTooMany : RespBody
  | summaryBody : Nat → List String → List PulseResult → RespBody
  | singleBody : PulseResult → RespBody
  | multiBody : Nat → List PulseResult → RespBody
  | internalError : String → RespBody
deriving DecidableEq

/-- An HTTP response: status code and JSON body. The headers are the
same constant map on every path and are not modelled. -/
structure Response where
  status : Nat
  body : RespBody
deriving DecidableEq

/-- Whether a body is the bare single-result object. -/
def RespBody.isSingle : RespBody → Bool
  | .singleBody _ => true
  | _ => false

/-- JS truthiness of `url.searchParams.get(...)`: null or the empty
string are falsy, every other string is truthy. -/
def jsTruthyStr (o : Option String) : Bool :=
  match o with
  | some s => s != ""
  | none => false

/-- `x || d` on a string query parameter. -/
def jsOrStr (o : Option String) (d : String) : String :=
  match o with
  | some s => if s = "" then d else s
  | none => d

/-- `tokens.split(',').map(t => t.trim()).filter(Boolean)` -/
def parseTokens (s : String) : List String :=
  ((s.splitOn ",").map String.trim).filter (fun t => t != "")

/-- `await Promise.all(addresses.map(getPulse))`: there is no
per-address catch here, so any rejection rejects the whole batch
(modelled deterministically with the leftmost error). -/
def traverseGetPulse (env : Env) (now : String) : List String → Except String (List PulseResult)
  | [] => .ok []
  | a :: rest =>
      match getPulse env now a, traverseGetPulse env now rest with
      | .error e, _ => .error e
      | .ok _, .error e => .error e
      | .ok r, .ok rs => .ok (r :: rs)

/-- The GET /api/pulse edge handler: parse `token`/`tokens`/`format`,
validate, fan out, and pick the body shape. The try/catch around the
whole pipeline turns any escaped rejection into a 500. -/
def handler (method : String) (token tokens format : Option String)
    (env : Env) (now : String) : Response :=
  let fmt := jsOrStr format "full"
  if method = "OPTIONS" then ⟨200, .optionsBody⟩
  else
    match (if jsTruthyStr token then some [token.getD ""]
           else if jsTruthyStr tokens then some (parseTokens (tokens.getD ""))
           else none) with
    | none => ⟨400, .errorMissing⟩
    | some addresses =>
      if addresses.length > 10 then ⟨400, .errorTooMany⟩
      else
        match traverseGetPulse env now addresses with
        | .error e => ⟨500, .internalError e⟩
        | .ok results =>
          if fmt = "summary" then
            ⟨200, .summaryBody results.length (results.map formatPulseSummary) results⟩
          else if addresses.length = 1 then
            ⟨200, .singleBody results.headI⟩
          else
            ⟨200, .multiBody results.length results⟩

/-! Definitions transcribed from the specification's words, for the
refinement claims that compare the code against the spec's algorithm. -/

/-- Spec §4.2 scoring algorithm, written from the claim's words: volume
tier, transaction tier, turnover tier, momentum bonus, momentum
penalty, accumulated from 0. -/
def spec_score (vol24h txns24h vr change24h : ℚ) : ℤ :=
  (if vol24h > 10000 then 3 else if vol24h > 1000 then 2 else if vol24h > 100 then 1 else 0)
    + (if txns24h > 50 then 2 else if txns24h > 10 then 1 else 0)
    + (if vr > 0.1 then 2 else if vr > 0.01 then 1 else 0)
    + (if change24h > 20 then 1 else 0)
    + (if change24h < -50 then -2 else 0)

/-- Spec §4.2 label mapping, top-down, first match wins. -/
def spec_label (score : ℤ) : String :=
  if score ≥ 6 then "strong"
  else if score ≥ 4 then "stable"
  else if score ≥ 2 then "weak"
  else if score ≥ 0 then "critical"
  else "dead"

/-- Spec §4.6 number formatting, written from the claim's words: values
≥ 1,000,000 as value/1e6 to 1 decimal plus M, values ≥ 1,000 as
value/1e3 to 1 decimal plus K, otherwise as an integer. -/
def spec_formatNum (v : ℚ) : String :=
  if v ≥ 1000000 then toFixed (v / 1000000) 1 ++ "M"
  else if v ≥ 1000 then toFixed (v / 1000) 1 ++ "K"
  else toFixed v 0

/-! Concrete inputs used by the scenario conjuncts, counterexamples and
witnesses below. -/

/-- The scenario pair of claim C2:
`{volume.h24:15000, marketCap:50000, priceChange.h24:25, txns.h24:{buys:30,sells:30}}`. -/
def c2Pair : Pair :=
  { volumeH24 := some 15000, marketCap := some 50000,
    priceChangeH24 := some 25, txnsH24Buys := some 30, txnsH24Sells := some 30 }

/-- The scenario result of claim C7: pulse critical, symbol FOO,
price 0.0000431, mcap 42809, volume24h 1654.9, change24h -42.88. -/
def c7Result : PulseResult :=
  { address := "0xfoo"
    found := true
    pulse := "critical"
    token := some { name := some "Foo", symbol := some "FOO" }
    stats := some { price := 0.0000431, mcap := 42809, volume24h := 1654.9,
                    change24h := -42.88, txns24h := 6, liquidity := 39095.09 } }

/-- A minimal pair with only a 24h volume of 500. -/
def pair500 : Pair := { volumeH24 := some 500 }

/-- An upstream that serves pairs for address 0xA and fails with a 404
for every other address. -/
def c1Env : Env := fun a =>
  if a = "0xA" then .ok [pair500] else .error "Dexscreener API error: 404"

/-- The result `getPulse` assembles for 0xA under `c1Env` at time t:
volume 500 scores 1, label critical. -/
def resultA : PulseResult :=
  { address := "0xA", found := true, pulse := "critical",
    token := some ⟨none, none⟩,
    stats := some ⟨0, 0, 500, 0, 0, 0⟩,
    pair := some ⟨none, none, none⟩,
    pairCount := some 1, timestamp := some "t" }

/-- The error result `getBatchPulse` builds for 0xB under `c1Env`. -/
def resultErrB : PulseResult :=
  { address := "0xB", found := false, pulse := "error",
    error := some "Dexscreener API error: 404" }

/-- An upstream that returns an empty pair list for every address. -/
def envEmpty : Env := fun _ => .ok []

/-- The not-found result for 0xA under `envEmpty`. -/
def resultNoPairs : PulseResult :=
  { address := "0xA", found := false, pulse := "dead",
    message := some "No trading pairs found" }

/-- A pair whose only datum is a 24h change of -60: it scores -2, so
its label is dead even though the pair exists. -/
def deadPair : Pair := { priceChangeH24 := some (-60) }

/-- An upstream serving exactly `deadPair` for every address. -/
def envDead : Env := fun _ => .ok [deadPair]

/-- The found-but-dead result for address a under `envDead` at time t. -/
def resultDead : PulseResult :=
  { address := "a", found := true, pulse := "dead",
    token := some ⟨none, none⟩,
    stats := some ⟨0, 0, 0, -60, 0, 0⟩,
    pair := some ⟨none, none, none⟩,
    pairCount := some 1, timestamp := some "t" }

/-- Claim C6's counterexample pair: marketCap present with value 0, fdv
positive. -/
def c6Pair : Pair := { marketCap := some 0, fdv := some 1000 }

/-- A pair with a present, nonzero marketCap next to an fdv. -/
def c6wPair : Pair := { marketCap := some 5, fdv := some 1000 }

/-- A pair with positive volume and positive marketCap. -/
def c8Pair : Pair := { volumeH24 := some 150, marketCap := some 3000 }

/-- A pair lacking `baseToken` entirely (claim C10). -/
def c10Pair : Pair := { priceUsd := some 0.5, volumeH24 := some 200 }

/-- An upstream serving exactly `c10Pair` for every address. -/
def envC10 : Env := fun _ => .ok [c10Pair]

/-- Two pairs with distinct volumes for the selection witness. -/
def selPairA : Pair := { volumeH24 := some 5 }

/-- Second selection-witness pair, with the larger volume. -/
def selPairB : Pair := { volumeH24 := some 7 }

deriving instance DecidableEq for Except

/-! Helper lemmas shared by the claim theorems. -/

/-- The score-to-label if-chain only ever produces one of the five
found-state labels. -/
theorem pulseLabel_mem (s : ℤ) :
    pulseLabel s ∈ (["strong", "stable", "weak", "critical", "dead"] : List String) := by
  unfold pulseLabel
  split_ifs <;> simp

/-- Invariant of the reduce in the main-pair selection: the accumulator
value only ever grows in volume, dominates every element seen, and if
it moved off the initial best it sits at a position strictly preceded
only by strictly smaller volumes. -/
theorem foldl_selStep_spec (ps : List Pair) :
    ∀ best : Pair,
      vol24 best ≤ vol24 (ps.foldl selStep best)
      ∧ (∀ q ∈ ps, vol24 q ≤ vol24 (ps.foldl selStep best))
      ∧ (ps.foldl selStep best = best
         ∨ ∃ l₁ l₂, ps = l₁ ++ ps.foldl selStep best :: l₂
             ∧ vol24 best < vol24 (ps.foldl selStep best)
             ∧ ∀ q ∈ l₁, vol24 q < vol24 (ps.foldl selStep best)) := by
  induction ps with
  | nil =>
    intro best
    exact ⟨le_refl _, by simp, Or.inl rfl⟩
  | cons a rest ih =>
    intro best
    rw [List.foldl_cons]
    by_cases h : vol24 a > vol24 best
    · have hs : selStep best a = a := if_pos h
      rw [hs]
      obtain ⟨h1, h2, h3⟩ := ih a
      refine ⟨le_trans (le_of_lt h) h1, ?_, ?_⟩
      · intro q hq
        rcases List.mem_cons.mp hq with rfl | hq
        · exact h1
        · exact h2 q hq
      · rcases h3 with hm | ⟨l₁, l₂, heq, hlt, hall⟩
        · refine Or.inr ⟨[], rest, by simp [hm], ?_, by simp⟩
          rw [hm]; exact h
        · refine Or.inr ⟨a :: l₁, l₂, by rw [List.cons_append, ← heq], lt_trans h hlt, ?_⟩
          intro q hq
          rcases List.mem_cons.mp hq with rfl | hq
          · exact hlt
          · exact hall q hq
    · have hs : selStep best a = best := if_neg h
      rw [hs]
      obtain ⟨h1, h2, h3⟩ := ih best
      have ha : vol24 a ≤ vol24 best := le_of_not_lt h
      refine ⟨h1, ?_, ?_⟩
      · intro q hq
        rcases List.mem_cons.mp hq with rfl | hq
        · exact le_trans ha h1
        · exact h2 q hq
      · rcases h3 with hm | ⟨l₁, l₂, heq, hlt, hall⟩
        · exact Or.inl hm
        · refine Or.inr ⟨a :: l₁, l₂, by rw [List.cons_append, ← heq], hlt, ?_⟩
          intro q hq
          rcases List.mem_cons.mp hq with rfl | hq
          · exact lt_of_le_of_lt ha hlt
          · exact hall q hq

/-- Every result `getPulse` returns is either the not-found shape
(found false, pulse dead, no token/stats/pair blocks) or a found result
whose pulse is one of the five labels. -/
theorem getPulse_ok_inv (env : Env) (now a : String) (r : PulseResult)
    (h : getPulse env now a = .ok r) :
    (r.found = false → r.pulse = "dead" ∧ r.token = none ∧ r.stats = none ∧ r.pair = none)
    ∧ (r.found = true →
        r.pulse ∈ (["strong", "stable", "weak", "critical", "dead"] : List String)) := by
  unfold getPulse at h
  split at h
  · exact absurd h (by simp)
  · rw [Except.ok.injEq] at h
    subst h
    refine ⟨fun _ => ⟨rfl, rfl, rfl, rfl⟩, fun hf => ?_⟩
    simp at hf
  · rw [Except.ok.injEq] at h
    subst h
    refine ⟨fun hf => by simp at hf, fun _ => ?_⟩
    exact pulseLabel_mem _

/-- Claim C2: for every non-null pair the pulse label is computed by
exactly the spec's algorithm (volume tier 3/2/1 at 10000/1000/100,
transaction tier 2/1 at 50/10, turnover tier 2/1 at 0.1/0.01, +1 above
20% change, -2 below -50% change, then the top-down label map 6/4/2/0);
in particular the scenario pair with volume 15000, marketCap 50000,
change 25 and 30+30 transactions scores 8 and is labeled strong. -/
theorem c2_calculatePulse_algorithm :
    (∀ p : Pair, calculatePulse (some p)
        = spec_label (spec_score (vol24 p) (txns24 p) (volRatio p) (change24 p)))
    ∧ spec_score (vol24 c2Pair) (txns24 c2Pair) (volRatio c2Pair) (change24 c2Pair) = 8
    ∧ calculatePulse (some c2Pair) = "strong" :=
  ⟨fun _ => rfl, by with_unfolding_all decide, by with_unfolding_all decide⟩

/-- Claim C3: for every non-empty pair sequence, the selected main pair
has maximal 24h volume (absent volume read as 0), and it is the
earliest such pair in input order: the list splits as l₁ ++ main :: l₂
with every pair in l₁ of strictly smaller volume. -/
theorem c3_selectMainPair_max_earliest (p : Pair) (ps : List Pair) :
    (∀ q ∈ p :: ps, vol24 q ≤ vol24 (selectMainPair p ps))
    ∧ ∃ l₁ l₂, p :: ps = l₁ ++ selectMainPair p ps :: l₂
        ∧ ∀ q ∈ l₁, vol24 q < vol24 (selectMainPair p ps) := by
  obtain ⟨h1, h2, h3⟩ := foldl_selStep_spec (p :: ps) p
  refine ⟨h2, ?_⟩
  rcases h3 with hm | ⟨l₁, l₂, heq, _, hall⟩
  · exact ⟨[], ps, by rw [List.nil_append, selectMainPair, hm], by simp⟩
  · exact ⟨l₁, l₂, heq, hall⟩

/-- Witness for C3 at a concrete two-pair list: the pair with volume 5
is dominated by the selected pair of the list [5, 7]. -/
theorem c3_selectMainPair_max_earliest_witness :
    vol24 selPairA ≤ vol24 (selectMainPair selPairA [selPairB]) :=
  (c3_selectMainPair_max_earliest selPairA [selPairB]).1 selPairA (by simp)

/-- Counterexample to claim C6: for the pair with marketCap present and
equal to 0 and fdv 1000, the computed mcap is 1000 (the fdv), not 0,
both in the scorer's input and in the assembled stats — JS `||` falls
through on a falsy 0, not only on an absent field. -/
theorem c6_mcap_zero_cex :
    c6Pair.marketCap = some 0 ∧ c6Pair.fdv = some 1000
    ∧ mcapOf c6Pair = 1000 ∧ (assembleStats c6Pair).mcap = 1000 := by
  refine ⟨rfl, rfl, ?_, ?_⟩ <;> with_unfolding_all decide

/-- Claim C6 as amended: mcap equals the pair's market capitalization
whenever marketCap is present and nonzero, and falls back to
fully-diluted valuation (defaulted to 0) when marketCap is absent or
zero; the assembled stats use the same value. -/
theorem c6_mcap_fallback_amended :
    (∀ (p : Pair) (m : ℚ), p.marketCap = some m → m ≠ 0 → mcapOf p = m)
    ∧ (∀ p : Pair, p.marketCap = none ∨ p.marketCap = some 0 → mcapOf p = jsNum p.fdv)
    ∧ (∀ p : Pair, (assembleStats p).mcap = mcapOf p) := by
  refine ⟨?_, ?_, fun p => rfl⟩
  · intro p m hm hne
    simp [mcapOf, hm, hne]
  · intro p hp
    rcases hp with hp | hp <;> simp [mcapOf, hp]

/-- Witness for the amended C6 at a pair with marketCap 5 and fdv 1000:
mcap is 5. -/
theorem c6_mcap_fallback_amended_witness : mcapOf c6wPair = 5 :=
  c6_mcap_fallback_amended.1 c6wPair 5 rfl (by with_unfolding_all decide)

/-- Claim C8: volRatio is the guarded turnover ratio — vol24h / mcap
exactly when the computed mcap is positive, and 0 otherwise, so no
division by zero reaches the score. -/
theorem c8_volRatio_guarded (p : Pair) :
    (0 < mcapOf p → volRatio p = vol24 p / mcapOf p)
    ∧ (¬ 0 < mcapOf p → volRatio p = 0) := by
  constructor <;> intro h <;> simp [volRatio, h]

/-- Witness for C8 at a pair with volume 150 and marketCap 3000. -/
theorem c8_volRatio_guarded_witness :
    0 < mcapOf c8Pair ∧ volRatio c8Pair = vol24 c8Pair / mcapOf c8Pair :=
  ⟨by with_unfolding_all decide,
   (c8_volRatio_guarded c8Pair).1 (by with_unfolding_all decide)⟩

/-- Claim C9: every result the batch step produces satisfies the
PulseResult invariant — found false implies pulse dead or error with
the token/stats/pair blocks absent, found true implies the pulse is one
of the five labels — and a found-true "dead" result really occurs (a
pair whose score is negative). -/
theorem c9_pulse_result_invariant :
    (∀ (env : Env) (now : String) (addrs : List String) (r : PulseResult),
        r ∈ getBatchPulse env now addrs →
          (r.found = false →
            (r.pulse = "dead" ∨ r.pulse = "error")
            ∧ r.token = none ∧ r.stats = none ∧ r.pair = none)
          ∧ (r.found = true →
            r.pulse ∈ (["strong", "stable", "weak", "critical", "dead"] : List String)))
    ∧ ∃ (env : Env) (now a : String) (r : PulseResult),
        getPulse env now a = .ok r ∧ r.found = true ∧ r.pulse = "dead" := by
  constructor
  · intro env now addrs r hr
    unfold getBatchPulse at hr
    rw [List.mem_map] at hr
    obtain ⟨a, _, hfr⟩ := hr
    cases hgp : getPulse env now a with
    | ok r0 =>
      rw [hgp] at hfr
      dsimp only at hfr
      subst hfr
      obtain ⟨hnf, hf⟩ := getPulse_ok_inv env now a r0 hgp
      exact ⟨fun h => ⟨Or.inl (hnf h).1, (hnf h).2⟩, hf⟩
    | error e =>
      rw [hgp] at hfr
      dsimp only at hfr
      subst hfr
      exact ⟨fun _ => ⟨Or.inr rfl, rfl, rfl, rfl⟩, fun hf => by simp at hf⟩
  · exact ⟨envDead, "t", "a", resultDead, by with_unfolding_all decide, rfl, rfl⟩

/-- Witness for C9 at the empty-upstream batch of one address: the
produced not-found result has pulse dead and no token/stats/pair. -/
theorem c9_pulse_result_invariant_witness :
    (resultNoPairs.pulse = "dead" ∨ resultNoPairs.pulse = "error")
    ∧ resultNoPairs.token = none ∧ resultNoPairs.stats = none ∧ resultNoPairs.pair = none :=
  (c9_pulse_result_invariant.1 envEmpty "t" ["0xA"] resultNoPairs
    (by with_unfolding_all decide)).1 rfl

/-- Claim C10: when the upstream pair lacks `baseToken`, the found
result still carries token name/symbol as undefined, and the summary
line renders the literal text $undefined in the symbol position. -/
theorem c10_undefined_symbol (env : Env) (now a : String) (p : Pair)
    (hbt : p.baseToken = none) (henv : env a = .ok [p]) :
    ∃ r, getPulse env now a = .ok r ∧ r.found = true
      ∧ r.token = some ⟨none, none⟩
      ∧ formatPulseSummary r
          = emojiFor r.pulse ++ " $undefined — " ++ r.pulse.toUpper
            ++ " | $" ++ toFixed (jsNum p.priceUsd) 6
            ++ " | mcap $" ++ formatNum (mcapOf p)
            ++ " | vol $" ++ formatNum (vol24 p)
            ++ " | " ++ (if change24 p ≥ 0 then "+" else "")
            ++ toFixed (change24 p) 1 ++ "%" := by
  have hmain : selectMainPair p [] = p := by
    simp [selectMainPair, selStep]
  have hgp : getPulse env now a = .ok
      { address := a, found := true,
        pulse := calculatePulse (some p),
        token := some ⟨none, none⟩,
        stats := some (assembleStats p),
        pair := some ⟨p.dexId, p.chainId, p.url⟩,
        pairCount := some 1,
        timestamp := some now } := by
    unfold getPulse
    rw [henv]
    simp [hmain, hbt]
  refine ⟨_, hgp, rfl, rfl, ?_⟩
  dsimp only [formatPulseSummary, jsStr, Option.getD, assembleStats]
  rw [String.append_assoc (emojiFor (calculatePulse (some p))) " $" "undefined",
    String.append_assoc (emojiFor (calculatePulse (some p))) (" $" ++ "undefined") " — "]
  rfl

/-- Witness for C10 at a concrete upstream pair with priceUsd 0.5 and
volume 200 and no baseToken. -/
theorem c10_undefined_symbol_witness :
    ∃ r, getPulse envC10 "t" "a" = .ok r ∧ r.found = true
      ∧ r.token = some ⟨none, none⟩
      ∧ formatPulseSummary r
          = emojiFor r.pulse ++ " $undefined — " ++ r.pulse.toUpper
            ++ " | $" ++ toFixed (jsNum c10Pair.priceUsd) 6
            ++ " | mcap $" ++ formatNum (mcapOf c10Pair)
            ++ " | vol $" ++ formatNum (vol24 c10Pair)
            ++ " | " ++ (if change24 c10Pair ≥ 0 then "+" else "")
            ++ toFixed (change24 c10Pair) 1 ++ "%" :=
  c10_undefined_symbol envC10 "t" "a" c10Pair rfl rfl

/-- The code's number formatter and the spec's formatting rule denote
the same function. -/
theorem formatNum_eq_spec : formatNum = spec_formatNum :=
  funext fun _ => rfl

/-- Claim C7: the summary line follows the spec's template — for a
found result, emoji, symbol, uppercased pulse, price to 6 decimals,
spec-formatted mcap and volume, signed change to 1 decimal; for a
not-found result, the address truncated to 10 characters; and the
concrete scenario renders exactly the expected line. -/
theorem c7_summary_template :
    (∀ r : PulseResult,
      formatPulseSummary r =
        if r.found then
          emojiFor r.pulse ++ " $" ++ jsStr (r.token.getD default).symbol ++ " — "
            ++ r.pulse.toUpper
            ++ " | $" ++ toFixed (r.stats.getD default).price 6
            ++ " | mcap $" ++ spec_formatNum (r.stats.getD default).mcap
            ++ " | vol $" ++ spec_formatNum (r.stats.getD default).volume24h
            ++ " | " ++ (if (r.stats.getD default).change24h ≥ 0 then "+" else "")
            ++ toFixed (r.stats.getD default).change24h 1 ++ "%"
        else r.address.take 10 ++ "... — " ++ r.pulse)
    ∧ formatPulseSummary c7Result
        = "🔴 $FOO — CRITICAL | $0.000043 | mcap $42.8K | vol $1.7K | -42.9%" := by
  constructor
  · intro r
    cases hf : r.found
    · simp [formatPulseSummary, hf]
    · simp [formatPulseSummary, hf, ← formatNum_eq_spec]
  · with_unfolding_all decide

/-- Claim C1 (code bug): under an upstream that serves pairs for 0xA
and fails with a 404 for 0xB, the library's getBatchPulse isolates the
failure — 0xB becomes an error result and 0xA's result is intact — but
the HTTP handler maps getPulse under Promise.all with no per-address
catch, so the same two-address request dies whole with HTTP 500. -/
theorem c1_batch_failure_aborts_request :
    handler "GET" none (some "0xA,0xB") none c1Env "t"
      = ⟨500, .internalError "Dexscreener API error: 404"⟩
    ∧ getBatchPulse c1Env "t" ["0xA", "0xB"] = [resultA, resultErrB] := by
  constructor <;> with_unfolding_all decide

/-- Counterexample to claim C4: a successful request supplying exactly
one address but format=summary answers 200 with the wrapped
count/summaries/results body, not the bare PulseResult object — the
summary check runs before the single-address check. -/
theorem c4_single_summary_wrapped_cex :
    (handler "GET" (some "0xA") none (some "summary") c1Env "t").status = 200
    ∧ (handler "GET" (some "0xA") none (some "summary") c1Env "t").body.isSingle = false := by
  constructor <;> with_unfolding_all decide

/-- Claim C4 as amended: a single successful address yields the bare
PulseResult object only under format ≠ summary; under format=summary
even a single address is wrapped as count/summaries/results; multiple
addresses yield count/results (full) or count/summaries/results
(summary). -/
theorem c4_response_shapes_amended :
    (∀ (tok : String) (fmt : Option String) (env : Env) (now : String) (r : PulseResult),
        tok ≠ "" → getPulse env now tok = .ok r → jsOrStr fmt "full" ≠ "summary" →
        handler "GET" (some tok) none fmt env now = ⟨200, .singleBody r⟩)
    ∧ (∀ (tok : String) (fmt : Option String) (env : Env) (now : String) (r : PulseResult),
        tok ≠ "" → getPulse env now tok = .ok r → jsOrStr fmt "full" = "summary" →
        handler "GET" (some tok) none fmt env now
          = ⟨200, .summaryBody 1 [formatPulseSummary r] [r]⟩)
    ∧ (∀ (toks : String) (fmt : Option String) (env : Env) (now : String)
          (results : List PulseResult),
        toks ≠ "" → traverseGetPulse env now (parseTokens toks) = .ok results →
        2 ≤ (parseTokens toks).length → (parseTokens toks).length ≤ 10 →
        jsOrStr fmt "full" ≠ "summary" →
        handler "GET" none (some toks) fmt env now
          = ⟨200, .multiBody results.length results⟩)
    ∧ (∀ (toks : String) (fmt : Option String) (env : Env) (now : String)
          (results : List PulseResult),
        toks ≠ "" → traverseGetPulse env now (parseTokens toks) = .ok results →
        2 ≤ (parseTokens toks).length → (parseTokens toks).length ≤ 10 →
        jsOrStr fmt "full" = "summary" →
        handler "GET" none (some toks) fmt env now
          = ⟨200, .summaryBody results.length (results.map formatPulseSummary) results⟩) := by
  refine ⟨?_, ?_, ?_, ?_⟩
  · intro tok fmt env now r htok hgp hfmt
    have ht : jsTruthyStr (some tok) = true := by simp [jsTruthyStr, htok]
    simp [handler, ht, traverseGetPulse, hgp, hfmt]
  · intro tok fmt env now r htok hgp hfmt
    have ht : jsTruthyStr (some tok) = true := by simp [jsTruthyStr, htok]
    simp [handler, ht, traverseGetPulse, hgp, hfmt]
  · intro toks fmt env now results htoks htrav h2 h10 hfmt
    have ht : jsTruthyStr (some toks) = true := by simp [jsTruthyStr, htoks]
    have hne1 : (parseTokens toks).length ≠ 1 := by omega
    have hng : ¬ (parseTokens toks).length > 10 := by omega
    simp [handler, ht, htrav, hfmt, hne1, hng, show jsTruthyStr none = false from rfl]
  · intro toks fmt env now results htoks htrav h2 h10 hfmt
    have ht : jsTruthyStr (some toks) = true := by simp [jsTruthyStr, htoks]
    have hng : ¬ (parseTokens toks).length > 10 := by omega
    simp [handler, ht, htrav, hfmt, hng, show jsTruthyStr none = false from rfl]

/-- Witness for the amended C4: one address, default format, bare
object response. -/
theorem c4_response_shapes_amended_witness :
    handler "GET" (some "0xA") none none c1Env "t" = ⟨200, .singleBody resultA⟩ :=
  c4_response_shapes_amended.1 "0xA" none c1Env "t" resultA (by decide)
    (by with_unfolding_all decide) (by decide)

/-- Counterexample to claim C5: with tokens="," the parsed address list
is empty, yet the handler answers 200 with count 0 and an empty results
array, not 400 — the validation checks parameter truthiness, not the
parsed list. -/
theorem c5_empty_tokens_cex :
    handler "GET" none (some ",") none c1Env "t" = ⟨200, .multiBody 0 []⟩
    ∧ (handler "GET" none (some ",") none c1Env "t").status ≠ 400 := by
  constructor <;> with_unfolding_all decide

/-- Claim C5 as amended: the 400 error+usage payload is returned
exactly when neither `token` nor `tokens` is a truthy (present,
non-empty) parameter; a truthy `tokens` whose entries all trim to empty
instead yields 200 with count 0 and empty results. In both cases the
response is a constant independent of the upstream, so no upstream call
is observable. -/
theorem c5_validation_amended :
    (∀ (token tokens fmt : Option String) (env : Env) (now : String),
        jsTruthyStr token = false → jsTruthyStr tokens = false →
        handler "GET" token tokens fmt env now = ⟨400, .errorMissing⟩)
    ∧ (∀ (s : String) (fmt : Option String) (env : Env) (now : String),
        s ≠ "" → parseTokens s = [] →
        handler "GET" none (some s) fmt env now
          = if jsOrStr fmt "full" = "summary"
            then ⟨200, .summaryBody 0 [] []⟩
            else ⟨200, .multiBody 0 []⟩) := by
  constructor
  · intro token tokens fmt env now h1 h2
    simp [handler, h1, h2]
  · intro s fmt env now hs hp
    have ht : jsTruthyStr (some s) = true := by simp [jsTruthyStr, hs]
    simp [handler, ht, hp, traverseGetPulse, show jsTruthyStr none = false from rfl]

/-- Witness for the amended C5: no parameters at all gives the 400
error+usage response. -/
theorem c5_validation_amended_witness :
    handler "GET" none none none c1Env "t" = ⟨400, .errorMissing⟩ :=
  c5_validation_amended.1 none none none c1Env "t" rfl rfl
